import Mathlib

/-!
Verification of the translation layer of `backend-examples/python-fastapi/main.py`
(TR Payment Hub backend proxy).

Python floats appear in this layer only through two observations: `str(x)` (decimal
rendering, used when building processor payloads) and `float(s)` (decimal parsing,
used when normalizing processor results).  The data model constrains every monetary
amount to be a nonnegative finite decimal (`amount` positive, `paidPrice ≥ 0`), so a
float value is modelled by `Dec`: a nonnegative decimal `m / 10 ^ e`.  `str_float`
models Python's `str` on such values (positional notation; Python prints the shortest
decimal that round-trips, which has the same numeric value), and `pyFloat` models the
positional-decimal fragment of Python's `float`, returning `none` where `float` would
raise `ValueError` (the strings this layer produces and consumes never use exponent
notation).
-/

namespace TrPaymentHub

/-- A nonnegative decimal `m / 10 ^ e`, the model of the monetary float values. -/
structure Dec where
  m : Nat
  e : Nat
deriving DecidableEq, Repr

/-- Numeric value of a decimal. -/
def Dec.toRat (d : Dec) : ℚ := (d.m : ℚ) / (10 : ℚ) ^ d.e

/-- The character for a single decimal digit (`d < 10` in every use). -/
def digitChar : Nat → Char
  | 0 => '0'
  | 1 => '1'
  | 2 => '2'
  | 3 => '3'
  | 4 => '4'
  | 5 => '5'
  | 6 => '6'
  | 7 => '7'
  | 8 => '8'
  | _ => '9'

/-- Numeric value of a digit character. -/
def charVal (c : Char) : Nat := c.toNat - 48

/-- Value of a little-endian digit list. -/
def valLE : List Nat → Nat
  | [] => 0
  | d :: ds => d + 10 * valLE ds

/-- Little-endian base-10 digits of `n`, with explicit fuel (structural recursion). -/
def natDigitsAux : Nat → Nat → List Nat
  | 0, _ => []
  | fuel + 1, n => if n = 0 then [] else n % 10 :: natDigitsAux fuel (n / 10)

/-- Little-endian base-10 digits of `n` (empty for `0`). -/
def natDigits (n : Nat) : List Nat := natDigitsAux n n

/-- Big-endian character rendering of a natural number, as Python prints it. -/
def natChars (n : Nat) : List Char :=
  if n = 0 then ['0'] else ((natDigits n).map digitChar).reverse

/-- Fractional part of the rendering: the digits of `f` left-padded with zeros to
width `e`. -/
def fracChars (f e : Nat) : List Char :=
  List.replicate (e - (natChars f).length) '0' ++ natChars f

/-- Character rendering of a decimal, modelling `str` on a nonnegative float:
integer part, `'.'`, fractional part (Python always prints a fractional part,
`str(100.0) = "100.0"`). -/
def renderDec (d : Dec) : List Char :=
  natChars (d.m / 10 ^ d.e) ++
    '.' :: (if d.e = 0 then ['0'] else fracChars (d.m % 10 ^ d.e) d.e)

/-- Models Python `str(x)` for the nonnegative float `x` modelled by `d`. -/
def str_float (d : Dec) : String := String.mk (renderDec d)

/-- Value of a big-endian digit-character list. -/
def parseDigits (cs : List Char) : Nat :=
  cs.foldl (fun a c => 10 * a + charVal c) 0

/-- Models the positional-decimal fragment of Python `float(s)`: digits with at
most one `'.'` and at least one digit; `none` where `float` raises `ValueError`. -/
def parseDec (cs : List Char) : Option Dec :=
  match cs.dropWhile (fun c => c != '.') with
  | [] =>
      if cs.isEmpty then none
      else if cs.all Char.isDigit then some ⟨parseDigits cs, 0⟩ else none
  | _ :: fs =>
      if (cs.takeWhile (fun c => c != '.')).isEmpty && fs.isEmpty then none
      else if (cs.takeWhile (fun c => c != '.')).all Char.isDigit && fs.all Char.isDigit then
        some ⟨parseDigits (cs.takeWhile (fun c => c != '.')) * 10 ^ fs.length
                + parseDigits fs,
              fs.length⟩
      else none

/-- Models Python `float(s)` on the decimal notation this layer exchanges. -/
def pyFloat (s : String) : Option Dec := parseDec s.data

/-! ### Digit-level facts -/

theorem charVal_digitChar : ∀ d : Nat, d < 10 → charVal (digitChar d) = d := by decide

theorem isDigit_digitChar : ∀ d : Nat, d < 10 → (digitChar d).isDigit = true := by decide

theorem digitChar_ne_dot : ∀ d : Nat, d < 10 → (digitChar d != '.') = true := by decide

theorem valLE_natDigitsAux : ∀ fuel n : Nat, n ≤ fuel → valLE (natDigitsAux fuel n) = n := by
  intro fuel
  induction fuel with
  | zero =>
      intro n h
      have hn : n = 0 := Nat.le_zero.mp h
      simp [hn, natDigitsAux, valLE]
  | succ f ih =>
      intro n h
      by_cases h0 : n = 0
      · simp [h0, natDigitsAux, valLE]
      · have hdiv : n / 10 < n := Nat.div_lt_self (Nat.pos_of_ne_zero h0) (by norm_num)
        have hle : n / 10 ≤ f := by omega
        simp only [natDigitsAux, h0, if_false, valLE]
        rw [ih (n / 10) hle]
        omega

theorem natDigitsAux_lt_ten :
    ∀ fuel n d : Nat, d ∈ natDigitsAux fuel n → d < 10 := by
  intro fuel
  induction fuel with
  | zero => intro n d h; simp [natDigitsAux] at h
  | succ f ih =>
      intro n d h
      by_cases h0 : n = 0
      · simp [h0, natDigitsAux] at h
      · simp only [natDigitsAux, h0, if_false, List.mem_cons] at h
        rcases h with h | h
        · subst h; exact Nat.mod_lt _ (by norm_num)
        · exact ih _ _ h

theorem natDigitsAux_length :
    ∀ fuel n k : Nat, n < 10 ^ k → (natDigitsAux fuel n).length ≤ k := by
  intro fuel
  induction fuel with
  | zero => intro n k _; simp [natDigitsAux]
  | succ f ih =>
      intro n k h
      by_cases h0 : n = 0
      · simp [h0, natDigitsAux]
      · cases k with
        | zero => simp at h; omega
        | succ k' =>
            have hdiv : n / 10 < 10 ^ k' := by
              apply (Nat.div_lt_iff_lt_mul (by norm_num : (0:Nat) < 10)).mpr
              calc n < 10 ^ (k' + 1) := h
                _ = 10 ^ k' * 10 := by ring
            simp only [natDigitsAux, h0, if_false, List.length_cons]
            have := ih (n / 10) k' hdiv
            omega

theorem valLE_natDigits (n : Nat) : valLE (natDigits n) = n :=
  valLE_natDigitsAux n n (Nat.le_refl n)

theorem natChars_ne_nil (n : Nat) : natChars n ≠ [] := by
  unfold natChars
  by_cases h0 : n = 0
  · simp [h0]
  · simp only [h0, if_false]
    intro hcon
    have h1 : (natDigits n).map digitChar = [] := List.reverse_eq_nil_iff.mp hcon
    have h2 : natDigits n = [] := List.map_eq_nil_iff.mp h1
    have h3 : valLE (natDigits n) = n := valLE_natDigits n
    rw [h2] at h3
    simp [valLE] at h3
    exact h0 h3.symm

theorem natChars_all_digit (n : Nat) : ∀ c ∈ natChars n, c.isDigit = true := by
  intro c hc
  by_cases h0 : n = 0
  · simp [natChars, h0] at hc
    subst hc; decide
  · simp [natChars, h0] at hc
    obtain ⟨d, hd, rfl⟩ := hc
    exact isDigit_digitChar d (natDigitsAux_lt_ten _ _ _ hd)

theorem natChars_ne_dot (n : Nat) : ∀ c ∈ natChars n, (c != '.') = true := by
  intro c hc
  by_cases h0 : n = 0
  · simp [natChars, h0] at hc
    subst hc; decide
  · simp [natChars, h0] at hc
    obtain ⟨d, hd, rfl⟩ := hc
    exact digitChar_ne_dot d (natDigitsAux_lt_ten _ _ _ hd)

theorem natChars_length_le (n k : Nat) (hk : 1 ≤ k) (h : n < 10 ^ k) :
    (natChars n).length ≤ k := by
  by_cases h0 : n = 0
  · simp [natChars, h0]; omega
  · simp only [natChars, h0, if_false, List.length_reverse, List.length_map]
    exact natDigitsAux_length n n k h

theorem parseDigits_go (ds : List Nat) :
    ∀ a : Nat, (∀ d ∈ ds, d < 10) →
      (ds.reverse.map digitChar).foldl (fun x c => 10 * x + charVal c) a
        = a * 10 ^ ds.length + valLE ds := by
  induction ds with
  | nil => intro a _; simp [valLE]
  | cons d ds ih =>
      intro a h
      have hd : d < 10 := h d (by simp)
      have hds : ∀ x ∈ ds, x < 10 := fun x hx => h x (by simp [hx])
      simp only [List.reverse_cons, List.map_append, List.foldl_append, List.map_cons,
        List.map_nil, List.foldl_cons, List.foldl_nil]
      rw [ih a hds, charVal_digitChar d hd]
      simp [valLE, List.length_cons, pow_succ]
      ring

theorem parseDigits_natChars (n : Nat) : parseDigits (natChars n) = n := by
  by_cases h0 : n = 0
  · subst h0; decide
  · unfold parseDigits natChars
    simp only [h0, if_false]
    have hrev : ((natDigits n).map digitChar).reverse = (natDigits n).reverse.map digitChar := by
      simp
    rw [hrev]
    rw [parseDigits_go (natDigits n) 0 (fun d hd => natDigitsAux_lt_ten _ _ _ hd)]
    rw [valLE_natDigits]
    simp

theorem parseDigits_replicate_zero (k : Nat) (cs : List Char) :
    parseDigits (List.replicate k '0' ++ cs) = parseDigits cs := by
  induction k with
  | zero => simp
  | succ k ih =>
      have : charVal '0' = 0 := by decide
      simp only [List.replicate_succ, List.cons_append, parseDigits, List.foldl_cons] at *
      rw [this]
      simpa [parseDigits] using ih

theorem takeWhile_append_dot (B : List Char) :
    ∀ A : List Char, (∀ c ∈ A, (c != '.') = true) →
      (A ++ '.' :: B).takeWhile (fun c => c != '.') = A := by
  intro A
  induction A with
  | nil => intro _; simp [List.takeWhile]
  | cons a A ih =>
      intro h
      have ha : (a != '.') = true := h a (by simp)
      simp only [List.cons_append, List.takeWhile, ha]
      exact congrArg (fun l => a :: l) (ih (fun c hc => h c (by simp [hc])))

theorem dropWhile_append_dot (B : List Char) :
    ∀ A : List Char, (∀ c ∈ A, (c != '.') = true) →
      (A ++ '.' :: B).dropWhile (fun c => c != '.') = '.' :: B := by
  intro A
  induction A with
  | nil => intro _; simp [List.dropWhile]
  | cons a A ih =>
      intro h
      have ha : (a != '.') = true := h a (by simp)
      simp only [List.cons_append, List.dropWhile, ha]
      exact ih (fun c hc => h c (by simp [hc]))

/-- Parsing a digit string, a dot, and a digit string yields the positional value. -/
theorem parseDec_append_dot (A B : List Char)
    (hA : A ≠ []) (hAd : ∀ c ∈ A, c.isDigit = true) (hAdot : ∀ c ∈ A, (c != '.') = true)
    (hBd : ∀ c ∈ B, c.isDigit = true) :
    parseDec (A ++ '.' :: B)
      = some ⟨parseDigits A * 10 ^ B.length + parseDigits B, B.length⟩ := by
  have hne : A.isEmpty = false := by
    cases A with
    | nil => exact absurd rfl hA
    | cons a A => rfl
  have h1 : A.all Char.isDigit = true := List.all_eq_true.mpr hAd
  have h2 : B.all Char.isDigit = true := List.all_eq_true.mpr hBd
  unfold parseDec
  rw [dropWhile_append_dot _ _ hAdot]
  simp only [takeWhile_append_dot _ _ hAdot, hne, Bool.false_and, if_false, h1, h2,
    Bool.and_self, if_true]
  rfl

/-- Round trip: parsing the rendered decimal recovers the numeric value
(`float(str(x)) == x` for the nonnegative finite floats in use). -/
theorem parseDec_renderDec (d : Dec) :
    ∃ d' : Dec, parseDec (renderDec d) = some d' ∧ d'.toRat = d.toRat := by
  obtain ⟨m, e⟩ := d
  by_cases he : e = 0
  · subst he
    refine ⟨⟨parseDigits (natChars m) * 10 ^ 1 + parseDigits ['0'], 1⟩, ?_, ?_⟩
    · have hrender : renderDec ⟨m, 0⟩ = natChars m ++ '.' :: ['0'] := by
        simp [renderDec]
      rw [hrender]
      rw [parseDec_append_dot (natChars m) ['0'] (natChars_ne_nil m)
        (natChars_all_digit m) (natChars_ne_dot m)
        (by intro c hc; simp at hc; subst hc; decide)]
      rfl
    · have h0 : parseDigits ['0'] = 0 := by decide
      rw [parseDigits_natChars, h0]
      show ((m * 10 ^ 1 + 0 : Nat) : ℚ) / 10 ^ 1 = (m : ℚ) / 10 ^ 0
      push_cast
      field_simp
  · refine ⟨⟨m, e⟩, ?_, rfl⟩
    have hfe : m % 10 ^ e < 10 ^ e := Nat.mod_lt _ (pow_pos (by norm_num) e)
    have hlen : (natChars (m % 10 ^ e)).length ≤ e :=
      natChars_length_le _ e (Nat.one_le_iff_ne_zero.mpr he) hfe
    have hfrac_dot : ∀ c ∈ fracChars (m % 10 ^ e) e, (c != '.') = true := by
      intro c hc
      simp only [fracChars, List.mem_append, List.mem_replicate] at hc
      rcases hc with ⟨_, rfl⟩ | hc
      · decide
      · exact natChars_ne_dot _ c hc
    have hfrac_dig : ∀ c ∈ fracChars (m % 10 ^ e) e, c.isDigit = true := by
      intro c hc
      simp only [fracChars, List.mem_append, List.mem_replicate] at hc
      rcases hc with ⟨_, rfl⟩ | hc
      · decide
      · exact natChars_all_digit _ c hc
    have hflen : (fracChars (m % 10 ^ e) e).length = e := by
      simp only [fracChars, List.length_append, List.length_replicate]
      omega
    have hfval : parseDigits (fracChars (m % 10 ^ e) e) = m % 10 ^ e := by
      unfold fracChars
      rw [parseDigits_replicate_zero, parseDigits_natChars]
    have hrender : renderDec ⟨m, e⟩
        = natChars (m / 10 ^ e) ++ '.' :: fracChars (m % 10 ^ e) e := by
      simp [renderDec, he]
    rw [hrender]
    rw [parseDec_append_dot _ _ (natChars_ne_nil _) (natChars_all_digit _)
      (natChars_ne_dot _) hfrac_dig]
    rw [hflen, hfval, parseDigits_natChars]
    have hdm : m / 10 ^ e * 10 ^ e + m % 10 ^ e = m := by
      rw [Nat.mul_comm]
      exact Nat.div_add_mod m (10 ^ e)
    rw [hdm]

/-- The round trip through the payload strings, at the `String` level. -/
theorem pyFloat_str_float (d : Dec) :
    ∃ d' : Dec, pyFloat (str_float d) = some d' ∧ d'.toRat = d.toRat := by
  have h := parseDec_renderDec d
  simpa [pyFloat, str_float] using h

/-!
### Domain model (`main.py` lines 54-112, the pydantic request models)
-/

/-- `CardInfo` (lines 54-60). -/
structure CardInfo where
  cardHolderName : String
  cardNumber : String
  expireMonth : String
  expireYear : String
  cvc : String
  registerCard : Bool := false
deriving Repr

/-- `BuyerInfo` (lines 63-73); `identityNumber` is `Optional[str]` with pydantic
default `"11111111111"`. -/
structure BuyerInfo where
  id : String
  name : String
  surname : String
  email : String
  phone : String
  ip : String
  city : String
  country : String
  address : String
  identityNumber : Option String := some "11111111111"
deriving Repr

/-- `BasketItem` (lines 76-81). -/
structure BasketItem where
  id : String
  name : String
  category : String
  price : Dec
  itemType : String := "physical"
deriving Repr

/-- `PaymentRequest` (lines 84-93). -/
structure PaymentRequest where
  orderId : String
  amount : Dec
  paidPrice : Option Dec := none
  currency : String := "tryLira"
  installment : Int := 1
  card : CardInfo
  buyer : BuyerInfo
  basketItems : List BasketItem
  callbackUrl : Option String := none
deriving Repr

/-- `RefundRequest` (lines 96-98). -/
structure RefundRequest where
  transactionId : String
  amount : Dec
deriving Repr

/-- `ChargeRequest` (lines 101-107). -/
structure ChargeRequest where
  cardToken : String
  cardUserKey : String
  orderId : String
  amount : Dec
  buyer : BuyerInfo
  basketItems : List BasketItem
deriving Repr

/-- `ThreeDSCompleteRequest` (lines 110-112); `callbackData` is an optional
string-keyed dict, modelled as an association list. -/
structure ThreeDSCompleteRequest where
  transactionId : String
  callbackData : Option (List (String × String)) := none
deriving Repr

/-!
### Python truthiness helpers

Python's `x or y` returns `y` when `x` is falsy: `None`, `0.0` and `""` are falsy.
-/

/-- `x or dflt` for an optional float (`None` and `0.0` are falsy). -/
def pyOrDec (x : Option Dec) (dflt : Dec) : Dec :=
  match x with
  | some p => if p.m = 0 then dflt else p
  | none => dflt

/-- `x or dflt` for an optional string (`None` and `""` are falsy). -/
def pyOrStr (x : Option String) (dflt : String) : String :=
  match x with
  | some s => if s = "" then dflt else s
  | none => dflt

/-!
### Currency and field mapping (`map_currency` lines 116-124; the item-kind
mapping is inline at lines 177 and 548)
-/

/-- `map_currency` (lines 116-124): dictionary lookup with default `"TRY"`. -/
def map_currency (currency : String) : String :=
  (List.lookup currency
    [("tryLira", "TRY"), ("usd", "USD"), ("eur", "EUR"), ("gbp", "GBP")]).getD "TRY"

/-- The basket-item kind mapping, inline in the source at lines 177 and 548:
`"PHYSICAL" if item.itemType == "physical" else "VIRTUAL"`. -/
def map_item_kind (kind : String) : String :=
  if kind = "physical" then "PHYSICAL" else "VIRTUAL"

/-!
### Processor payloads (request builders)
-/

/-- The `paymentCard` sub-dict of the create/init payload (lines 140-147). -/
structure IyzicoPaymentCard where
  cardHolderName : String
  cardNumber : String
  expireMonth : String
  expireYear : String
  cvc : String
  registerCard : String
deriving Repr

/-- The `buyer` sub-dict (lines 148-159 and 519-530). -/
structure IyzicoBuyer where
  id : String
  name : String
  surname : String
  gsmNumber : String
  email : String
  identityNumber : String
  registrationAddress : String
  ip : String
  city : String
  country : String
deriving Repr

/-- The `shippingAddress`/`billingAddress` sub-dicts (lines 160-171, 531-542). -/
structure IyzicoAddress where
  contactName : String
  city : String
  country : String
  address : String
deriving Repr

/-- One entry of the `basketItems` list (lines 172-181, 543-552). -/
structure IyzicoBasketItem where
  id : String
  name : String
  category1 : String
  itemType : String
  price : String
deriving Repr

/-- The full create/init-3DS payment payload (lines 130-182). -/
structure IyzicoPaymentPayload where
  locale : String
  conversationId : String
  price : String
  paidPrice : String
  currency : String
  installment : String
  basketId : String
  paymentChannel : String
  paymentGroup : String
  paymentCard : IyzicoPaymentCard
  buyer : IyzicoBuyer
  shippingAddress : IyzicoAddress
  billingAddress : IyzicoAddress
  basketItems : List IyzicoBasketItem
deriving Repr

/-- The shared buyer sub-dict assembly (lines 148-159, repeated at 519-530). -/
def buyer_payload (b : BuyerInfo) : IyzicoBuyer :=
  { id := b.id
    name := b.name
    surname := b.surname
    gsmNumber := b.phone
    email := b.email
    identityNumber := pyOrStr b.identityNumber "11111111111"
    registrationAddress := b.address
    ip := b.ip
    city := b.city
    country := b.country }

/-- The shared shipping/billing address assembly (lines 160-171, 531-542):
`contactName` is the f-string `"{name} {surname}"`. -/
def address_payload (b : BuyerInfo) : IyzicoAddress :=
  { contactName := b.name ++ " " ++ b.surname
    city := b.city
    country := b.country
    address := b.address }

/-- One built basket item (lines 172-181, repeated at 543-552). -/
def basket_item_payload (item : BasketItem) : IyzicoBasketItem :=
  { id := item.id
    name := item.name
    category1 := item.category
    itemType := map_item_kind item.itemType
    price := str_float item.price }

/-- `map_payment_request` (lines 127-182). -/
def map_payment_request (req : PaymentRequest) : IyzicoPaymentPayload :=
  { locale := "tr"
    conversationId := req.orderId
    price := str_float req.amount
    paidPrice := str_float (pyOrDec req.paidPrice req.amount)
    currency := map_currency req.currency
    installment := toString req.installment
    basketId := req.orderId
    paymentChannel := "WEB"
    paymentGroup := "PRODUCT"
    paymentCard :=
      { cardHolderName := req.card.cardHolderName
        cardNumber := req.card.cardNumber
        expireMonth := req.card.expireMonth
        expireYear := req.card.expireYear
        cvc := req.card.cvc
        registerCard := if req.card.registerCard then "1" else "0" }
    buyer := buyer_payload req.buyer
    shippingAddress := address_payload req.buyer
    billingAddress := address_payload req.buyer
    basketItems := req.basketItems.map basket_item_payload }

/-- The complete-3DS confirmation payload (lines 278-282):
`paymentId` is `(request.callbackData or {}).get("paymentId", request.transactionId)`. -/
structure ThreedsPaymentPayload where
  locale : String
  conversationId : String
  paymentId : String
deriving Repr

/-- The payload built by `complete_3ds_payment` (lines 278-282). -/
def complete_3ds_request (req : ThreeDSCompleteRequest) : ThreedsPaymentPayload :=
  { locale := "tr"
    conversationId := req.transactionId
    paymentId := ((req.callbackData.getD []).lookup "paymentId").getD req.transactionId }

/-- The refund payload (lines 369-375); `now` models `int(time.time())`. -/
structure RefundPayload where
  locale : String
  conversationId : String
  paymentTransactionId : String
  price : String
  currency : String
deriving Repr

/-- The payload built by `refund_payment` (lines 369-375). -/
def refund_request_payload (req : RefundRequest) (now : Nat) : RefundPayload :=
  { locale := "tr"
    conversationId := toString now
    paymentTransactionId := req.transactionId
    price := str_float req.amount
    currency := "TRY" }

/-- The saved-card `paymentCard` sub-dict (lines 515-518). -/
structure IyzicoTokenCard where
  cardToken : String
  cardUserKey : String
deriving Repr

/-- The charge-saved-card payload (lines 505-553). -/
structure ChargePayload where
  locale : String
  conversationId : String
  price : String
  paidPrice : String
  currency : String
  installment : String
  basketId : String
  paymentChannel : String
  paymentGroup : String
  paymentCard : IyzicoTokenCard
  buyer : IyzicoBuyer
  shippingAddress : IyzicoAddress
  billingAddress : IyzicoAddress
  basketItems : List IyzicoBasketItem
deriving Repr

/-- The payload built by `charge_saved_card` (lines 505-553). -/
def charge_request_payload (req : ChargeRequest) : ChargePayload :=
  { locale := "tr"
    conversationId := req.orderId
    price := str_float req.amount
    paidPrice := str_float req.amount
    currency := "TRY"
    installment := "1"
    basketId := req.orderId
    paymentChannel := "WEB"
    paymentGroup := "PRODUCT"
    paymentCard := { cardToken := req.cardToken, cardUserKey := req.cardUserKey }
    buyer := buyer_payload req.buyer
    shippingAddress := address_payload req.buyer
    billingAddress := address_payload req.buyer
    basketItems := req.basketItems.map basket_item_payload }

/-!
### Processor results and the response envelopes

A parsed processor result is a JSON dict; the layer reads it only through
`result.get(key)`, so it is modelled as a record of optional fields (`none` models
an absent key).  The bodies the layer returns are modelled as JSON values so that
shape claims (which keys are present, `success=false`, `null` versus `0`) are
about the actual dict literals of the source.
-/

/-- The fields of an iyzico result that this layer reads. -/
structure IyzicoResult where
  status : Option String := none
  paymentId : Option String := none
  conversationId : Option String := none
  threeDSHtmlContent : Option String := none
  price : Option String := none
  paidPrice : Option String := none
  installment : Option Int := none
  cardType : Option String := none
  cardAssociation : Option String := none
  binNumber : Option String := none
  lastFourDigits : Option String := none
  paymentTransactionId : Option String := none
  paymentStatus : Option String := none
  errorCode : Option String := none
  errorMessage : Option String := none
deriving Repr

/-- JSON values, the shape of the response bodies this layer returns. -/
inductive Json where
  | null : Json
  | bool : Bool → Json
  | str : String → Json
  | num : Dec → Json
  | int : Int → Json
  | obj : List (String × Json) → Json
deriving Repr

/-- Key lookup in a JSON object (`body[key]` / `body.get(key)`). -/
def Json.get : Json → String → Option Json
  | .obj kvs, k => kvs.lookup k
  | _, _ => none

/-- An optional string field, passed through as-is (`None` becomes JSON null). -/
def optStr : Option String → Json
  | some s => .str s
  | none => .null

/-- An optional integer field, passed through as-is (`None` becomes JSON null). -/
def optInt : Option Int → Json
  | some n => .int n
  | none => .null

/-- `float(result.get(key, 0))`: an absent key gives `float(0) = 0.0`; a present
string is parsed, and `none` models the `ValueError` that `float` raises on a
non-numeric string. -/
def pyFloatOrZero : Option String → Option Dec
  | none => some ⟨0, 0⟩
  | some s => pyFloat s

/-- `map_payment_response` (lines 185-204).  `none` models the exception escaping
from `float(...)`, which each endpoint's generic handler turns into a 500. -/
def map_payment_response (result : IyzicoResult) : Option Json :=
  if result.status = some "success" then
    match pyFloatOrZero result.price, pyFloatOrZero result.paidPrice with
    | some a, some p =>
        some (.obj
          [("success", .bool true),
           ("transactionId", optStr result.paymentId),
           ("paymentId", optStr result.paymentId),
           ("amount", .num a),
           ("paidAmount", .num p),
           ("installment", optInt result.installment),
           ("cardType", optStr result.cardType),
           ("cardAssociation", optStr result.cardAssociation),
           ("binNumber", optStr result.binNumber),
           ("lastFourDigits", optStr result.lastFourDigits)])
    | _, _ => none
  else
    some (.obj
      [("success", .bool false),
       ("errorCode", .str (result.errorCode.getD "unknown")),
       ("errorMessage", .str (result.errorMessage.getD "Unknown error"))])

/-- What an endpoint hands back to the transport: a 200 body, or an
`HTTPException(status_code, detail)`. -/
inductive Outcome where
  | ok : Json → Outcome
  | httpError : Nat → Json → Outcome
deriving Repr

/-- The 400 detail of `init_3ds_payment` (lines 256-263). -/
def init_3ds_fail_detail (result : IyzicoResult) : Json :=
  .obj
    [("success", .bool false),
     ("errorCode", .str (result.errorCode.getD "3ds_init_failed")),
     ("errorMessage", .str (result.errorMessage.getD "3DS initialization failed"))]

/-- The 400 detail of `get_installments` (lines 347-354). -/
def installments_fail_detail (result : IyzicoResult) : Json :=
  .obj
    [("success", .bool false),
     ("errorCode", .str (result.errorCode.getD "no_installments")),
     ("errorMessage", .str (result.errorMessage.getD "No installment options found"))]

/-- The 400 detail of `refund_payment` (lines 391-398). -/
def refund_fail_detail (result : IyzicoResult) : Json :=
  .obj
    [("success", .bool false),
     ("errorCode", .str (result.errorCode.getD "refund_failed")),
     ("errorMessage", .str (result.errorMessage.getD "Refund failed"))]

/-- The 400 detail of `get_payment_status` (lines 432-439). -/
def status_fail_detail (result : IyzicoResult) : Json :=
  .obj
    [("success", .bool false),
     ("errorCode", .str (result.errorCode.getD "status_check_failed")),
     ("errorMessage", .str (result.errorMessage.getD "Status check failed"))]

/-- The 400 detail of `list_saved_cards` (lines 483-490). -/
def cards_list_fail_detail (result : IyzicoResult) : Json :=
  .obj
    [("success", .bool false),
     ("errorCode", .str (result.errorCode.getD "cards_list_failed")),
     ("errorMessage", .str (result.errorMessage.getD "Failed to list cards"))]

/-- The 400 detail of `delete_saved_card` (lines 597-604). -/
def card_delete_fail_detail (result : IyzicoResult) : Json :=
  .obj
    [("success", .bool false),
     ("errorCode", .str (result.errorCode.getD "card_delete_failed")),
     ("errorMessage", .str (result.errorMessage.getD "Failed to delete card"))]

/-- The 500 detail raised by every endpoint's generic handler
(`str(e)` is the exception description). -/
def server_error_detail (msg : String) : Json :=
  .obj
    [("success", .bool false),
     ("errorCode", .str "server_error"),
     ("errorMessage", .str msg)]

/-- `if not response["success"]: raise HTTPException(400, detail=response)` —
the branch shared by create/complete-3DS/charge (lines 220-223, 291-294, 562-565).
The `"success"` key is always present in a normalized response. -/
def dispatch_response (resp : Json) : Outcome :=
  match resp.get "success" with
  | some (.bool true) => .ok resp
  | _ => .httpError 400 resp

/-- The result handling shared by `create_payment`, `complete_3ds_payment` and
`charge_saved_card`: normalize, then return or raise;
`none` models an exception reaching the generic 500 handler. -/
def payment_response_handle (result : IyzicoResult) : Option Outcome :=
  (map_payment_response result).map dispatch_response

/-- The result handling of `init_3ds_payment` (lines 248-263). -/
def init_3ds_handle (result : IyzicoResult) : Outcome :=
  if result.status = some "success" then
    .ok (.obj
      [("success", .bool true),
       ("status", .str "pending"),
       ("transactionId", optStr result.conversationId),
       ("htmlContent", optStr result.threeDSHtmlContent)])
  else
    .httpError 400 (init_3ds_fail_detail result)

/-- The result handling of `refund_payment` (lines 384-398); `none` models the
exception from `float(result.get("price", 0))`. -/
def refund_handle (result : IyzicoResult) : Option Outcome :=
  if result.status = some "success" then
    (pyFloatOrZero result.price).map (fun q =>
      Outcome.ok (.obj
        [("success", .bool true),
         ("refundId", optStr result.paymentTransactionId),
         ("refundedAmount", .num q)]))
  else
    some (.httpError 400 (refund_fail_detail result))

/-- The result handling of `delete_saved_card` (lines 594-604). -/
def delete_card_handle (result : IyzicoResult) : Outcome :=
  if result.status = some "success" then
    .ok (.obj [("success", .bool true)])
  else
    .httpError 400 (card_delete_fail_detail result)

/-- The failure envelope shape of §7: `success=false` plus string `errorCode`
and `errorMessage`. -/
def isErrorEnvelope (j : Json) : Prop :=
  j.get "success" = some (.bool false) ∧
    (∃ c, j.get "errorCode" = some (.str c)) ∧
    (∃ m, j.get "errorMessage" = some (.str m))

/-- The synthetic success result of the round-trip property: `status="success"`
with `price`/`paidPrice` taken verbatim from a built payload. -/
def synthetic_success (payload : IyzicoPaymentPayload) : IyzicoResult :=
  { status := some "success"
    price := some payload.price
    paidPrice := some payload.paidPrice }

/-!
### Concrete fixtures used by counterexamples and witnesses
-/

/-- A concrete card. -/
def card0 : CardInfo :=
  { cardHolderName := "John Doe"
    cardNumber := "5528790000000008"
    expireMonth := "12"
    expireYear := "30"
    cvc := "123" }

/-- A concrete buyer. -/
def buyer0 : BuyerInfo :=
  { id := "B1"
    name := "John"
    surname := "Doe"
    email := "john@example.com"
    phone := "+905350000000"
    ip := "85.34.78.112"
    city := "Istanbul"
    country := "Turkey"
    address := "Nidakule" }

/-- A concrete physical basket item priced `100.0`. -/
def item0 : BasketItem :=
  { id := "I1", name := "Item", category := "Misc", price := ⟨100, 0⟩ }

/-- A request with `amount = 100.0` and a supplied `paidPrice = 0.0`. -/
def req0 : PaymentRequest :=
  { orderId := "ORD1"
    amount := ⟨100, 0⟩
    paidPrice := some ⟨0, 0⟩
    card := card0
    buyer := buyer0
    basketItems := [item0] }

/-- A basket item of unrecognized kind `"digital"`. -/
def item6 : BasketItem :=
  { id := "I2", name := "Ebook", category := "Media", price := ⟨50, 0⟩,
    itemType := "digital" }

/-- A request carrying the `"digital"` basket item. -/
def req6 : PaymentRequest :=
  { orderId := "ORD2"
    amount := ⟨50, 0⟩
    card := card0
    buyer := buyer0
    basketItems := [item6] }

/-- A request with `paidPrice` omitted. -/
def req8 : PaymentRequest :=
  { orderId := "ORD3"
    amount := ⟨250, 1⟩
    card := card0
    buyer := buyer0
    basketItems := [item0] }

/-- A success result with every optional field absent. -/
def r3 : IyzicoResult := { status := some "success" }

/-- A failure result carrying no error fields. -/
def r4 : IyzicoResult := { status := some "failure" }

/-- A result with no `status` key at all (also a failure). -/
def r5 : IyzicoResult := { status := none }

/-!
### The claims
-/

/-- C7: `map_currency` maps each supported currency value to its documented
3-letter processor code and every unrecognized input to `"TRY"`. -/
theorem currency_total :
    map_currency "tryLira" = "TRY" ∧ map_currency "usd" = "USD" ∧
    map_currency "eur" = "EUR" ∧ map_currency "gbp" = "GBP" ∧
    ∀ c : String, c ≠ "tryLira" → c ≠ "usd" → c ≠ "eur" → c ≠ "gbp" →
      map_currency c = "TRY" := by
  refine ⟨rfl, rfl, rfl, rfl, ?_⟩
  intro c h1 h2 h3 h4
  simp only [map_currency, List.lookup,
    beq_eq_false_iff_ne.mpr h1, beq_eq_false_iff_ne.mpr h2,
    beq_eq_false_iff_ne.mpr h3, beq_eq_false_iff_ne.mpr h4]
  rfl

/-- C7 witness: an unrecognized currency falls back to `"TRY"`. -/
theorem currency_total_witness : map_currency "jpy" = "TRY" :=
  currency_total.2.2.2.2 "jpy" (by decide) (by decide) (by decide) (by decide)

/-- C6 counterexample: the built payload's `itemType` for the unrecognized kind
`"digital"` is `"VIRTUAL"`, not `"PHYSICAL"` — the default is VIRTUAL. -/
theorem item_kind_cex :
    req6.basketItems.map (fun it => it.itemType) = ["digital"] ∧
    (map_payment_request req6).basketItems.map (fun it => it.itemType) = ["VIRTUAL"] ∧
    "VIRTUAL" ≠ "PHYSICAL" :=
  ⟨rfl, rfl, by decide⟩

/-- C6 amended: the item-kind mapping is a binary total function into
`{"PHYSICAL", "VIRTUAL"}` with VIRTUAL as the default: `"physical"` maps to
`"PHYSICAL"` and every other kind value maps to `"VIRTUAL"`; the built payload
applies exactly this mapping to each basket item. -/
theorem item_kind_amended :
    (∀ k : String, map_item_kind k = "PHYSICAL" ∨ map_item_kind k = "VIRTUAL") ∧
    map_item_kind "physical" = "PHYSICAL" ∧
    (∀ k : String, k ≠ "physical" → map_item_kind k = "VIRTUAL") ∧
    ∀ req : PaymentRequest,
      (map_payment_request req).basketItems.map (fun it => it.itemType)
        = req.basketItems.map (fun it => map_item_kind it.itemType) := by
  refine ⟨?_, rfl, ?_, ?_⟩
  · intro k
    by_cases h : k = "physical" <;> simp [map_item_kind, h]
  · intro k h
    simp [map_item_kind, h]
  · intro req
    simp [map_payment_request, List.map_map, basket_item_payload]

/-- C6 amended witness: the unrecognized kind `"digital"` maps to `"VIRTUAL"`. -/
theorem item_kind_amended_witness : map_item_kind "digital" = "VIRTUAL" :=
  item_kind_amended.2.2.1 "digital" (by decide)

/-- C8: when `paidPrice` is omitted, the built payload's `paidPrice` is the
string rendering of the request's `amount`. -/
theorem paid_price_default (req : PaymentRequest) (h : req.paidPrice = none) :
    (map_payment_request req).paidPrice = str_float req.amount := by
  simp [map_payment_request, pyOrDec, h]

/-- C8 witness at a concrete request with `paidPrice` omitted. -/
theorem paid_price_default_witness :
    (map_payment_request req8).paidPrice = str_float req8.amount :=
  paid_price_default req8 rfl

/-- C10: a supplied `paidPrice` of `0.0` is treated exactly like an absent one
(Python `or` treats `0.0` as falsy): the built `paidPrice` is the rendering of
`amount`, and the whole payload equals the payload of the request without
`paidPrice`. -/
theorem paid_price_zero (req : PaymentRequest) (p : Dec)
    (h : req.paidPrice = some p) (hz : p.m = 0) :
    (map_payment_request req).paidPrice = str_float req.amount ∧
    map_payment_request req = map_payment_request { req with paidPrice := none } := by
  constructor
  · simp [map_payment_request, pyOrDec, h, hz]
  · simp [map_payment_request, pyOrDec, h, hz]

/-- C10 witness at the concrete request with `paidPrice = 0.0`. -/
theorem paid_price_zero_witness :
    (map_payment_request req0).paidPrice = str_float req0.amount :=
  (paid_price_zero req0 ⟨0, 0⟩ rfl rfl).1

/-- C2: the complete-3DS confirmation payload is keyed on the callback payload's
`paymentId` when present, and falls back to the request's `transactionId` when
the callback payload is absent or omits `paymentId`. -/
theorem complete_3ds_payment_id (req : ThreeDSCompleteRequest) :
    (∀ cb p, req.callbackData = some cb → cb.lookup "paymentId" = some p →
      (complete_3ds_request req).paymentId = p) ∧
    (req.callbackData = none →
      (complete_3ds_request req).paymentId = req.transactionId) ∧
    (∀ cb, req.callbackData = some cb → cb.lookup "paymentId" = none →
      (complete_3ds_request req).paymentId = req.transactionId) ∧
    (complete_3ds_request req).conversationId = req.transactionId := by
  refine ⟨?_, ?_, ?_, rfl⟩
  · intro cb p hcb hp
    simp [complete_3ds_request, hcb, hp]
  · intro h
    simp [complete_3ds_request, h]
  · intro cb hcb hp
    simp [complete_3ds_request, hcb, hp]

/-- C2 witness: `transactionId="T1"` with `callbackData={paymentId:"P9"}` keys the
payload on `"P9"`. -/
theorem complete_3ds_payment_id_witness :
    (complete_3ds_request ⟨"T1", some [("paymentId", "P9")]⟩).paymentId = "P9" :=
  (complete_3ds_payment_id ⟨"T1", some [("paymentId", "P9")]⟩).1
    [("paymentId", "P9")] "P9" rfl rfl

/-- C9: the refund payload and the charge-saved-card payload carry the constant
currency `"TRY"` for every input. -/
theorem fixed_currency_try :
    (∀ (req : RefundRequest) (now : Nat),
      (refund_request_payload req now).currency = "TRY") ∧
    ∀ req : ChargeRequest, (charge_request_payload req).currency = "TRY" :=
  ⟨fun _ _ => rfl, fun _ => rfl⟩

/-- C3: on a success status the normalizer coerces the numeric strings
`price`/`paidPrice` to numbers, defaulting the monetary fields to `0` when
absent, while every other absent optional field is projected as JSON null. -/
theorem success_projection (r : IyzicoResult) (a p : Dec)
    (hs : r.status = some "success")
    (ha : pyFloatOrZero r.price = some a) (hp : pyFloatOrZero r.paidPrice = some p) :
    ∃ resp, map_payment_response r = some resp ∧
      resp.get "amount" = some (.num a) ∧
      resp.get "paidAmount" = some (.num p) ∧
      (r.price = none → a = ⟨0, 0⟩) ∧
      (r.paidPrice = none → p = ⟨0, 0⟩) ∧
      (∀ s q, r.price = some s → pyFloat s = some q → a = q) ∧
      (r.installment = none → resp.get "installment" = some .null) ∧
      (∀ n, r.installment = some n → resp.get "installment" = some (.int n)) ∧
      (r.cardType = none → resp.get "cardType" = some .null) ∧
      (r.cardAssociation = none → resp.get "cardAssociation" = some .null) ∧
      (r.binNumber = none → resp.get "binNumber" = some .null) ∧
      (r.lastFourDigits = none → resp.get "lastFourDigits" = some .null) := by
  have hresp : map_payment_response r = some (Json.obj
      [("success", .bool true),
       ("transactionId", optStr r.paymentId),
       ("paymentId", optStr r.paymentId),
       ("amount", .num a),
       ("paidAmount", .num p),
       ("installment", optInt r.installment),
       ("cardType", optStr r.cardType),
       ("cardAssociation", optStr r.cardAssociation),
       ("binNumber", optStr r.binNumber),
       ("lastFourDigits", optStr r.lastFourDigits)]) := by
    simp [map_payment_response, hs, ha, hp]
  refine ⟨_, hresp, rfl, rfl, ?_, ?_, ?_, ?_, ?_, ?_, ?_, ?_, ?_⟩
  · intro h
    rw [h] at ha
    exact (Option.some.inj ha).symm
  · intro h
    rw [h] at hp
    exact (Option.some.inj hp).symm
  · intro s q hsome hq
    rw [hsome] at ha
    rw [show pyFloatOrZero (some s) = pyFloat s from rfl, hq] at ha
    exact (Option.some.inj ha).symm
  · intro h
    rw [h]
    rfl
  · intro n h
    rw [h]
    rfl
  · intro h
    rw [h]
    rfl
  · intro h
    rw [h]
    rfl
  · intro h
    rw [h]
    rfl
  · intro h
    rw [h]
    rfl

/-- C3 witness: an all-absent success result projects `amount = 0` and leaves
`installment` null. -/
theorem success_projection_witness :
    ∃ resp, map_payment_response r3 = some resp ∧
      resp.get "amount" = some (.num ⟨0, 0⟩) ∧
      resp.get "installment" = some .null := by
  obtain ⟨resp, h1, h2, _, _, _, _, h7, _⟩ :=
    success_projection r3 ⟨0, 0⟩ ⟨0, 0⟩ rfl rfl rfl
  exact ⟨resp, h1, h2, h7 rfl⟩

/-- C4: on a non-success status, the per-operation failure details carry the
processor's `errorCode`/`errorMessage` verbatim when present, and substitute the
operation-specific defaults `"3ds_init_failed"`, `"refund_failed"` and
`"card_delete_failed"` when `errorCode` is absent; the endpoint handlers raise
exactly these details with status 400. -/
theorem failure_defaults (r : IyzicoResult) (h : r.status ≠ some "success") :
    (∀ c, r.errorCode = some c →
      (init_3ds_fail_detail r).get "errorCode" = some (.str c) ∧
      (refund_fail_detail r).get "errorCode" = some (.str c) ∧
      (card_delete_fail_detail r).get "errorCode" = some (.str c)) ∧
    (∀ m, r.errorMessage = some m →
      (init_3ds_fail_detail r).get "errorMessage" = some (.str m) ∧
      (refund_fail_detail r).get "errorMessage" = some (.str m) ∧
      (card_delete_fail_detail r).get "errorMessage" = some (.str m)) ∧
    (r.errorCode = none →
      (init_3ds_fail_detail r).get "errorCode" = some (.str "3ds_init_failed") ∧
      (refund_fail_detail r).get "errorCode" = some (.str "refund_failed") ∧
      (card_delete_fail_detail r).get "errorCode"
        = some (.str "card_delete_failed")) ∧
    init_3ds_handle r = .httpError 400 (init_3ds_fail_detail r) ∧
    refund_handle r = some (.httpError 400 (refund_fail_detail r)) ∧
    delete_card_handle r = .httpError 400 (card_delete_fail_detail r) := by
  have e1 : (init_3ds_fail_detail r).get "errorCode"
      = some (.str (r.errorCode.getD "3ds_init_failed")) := rfl
  have e2 : (refund_fail_detail r).get "errorCode"
      = some (.str (r.errorCode.getD "refund_failed")) := rfl
  have e3 : (card_delete_fail_detail r).get "errorCode"
      = some (.str (r.errorCode.getD "card_delete_failed")) := rfl
  have f1 : (init_3ds_fail_detail r).get "errorMessage"
      = some (.str (r.errorMessage.getD "3DS initialization failed")) := rfl
  have f2 : (refund_fail_detail r).get "errorMessage"
      = some (.str (r.errorMessage.getD "Refund failed")) := rfl
  have f3 : (card_delete_fail_detail r).get "errorMessage"
      = some (.str (r.errorMessage.getD "Failed to delete card")) := rfl
  refine ⟨?_, ?_, ?_, ?_, ?_, ?_⟩
  · intro c hc
    rw [e1, e2, e3, hc]
    exact ⟨rfl, rfl, rfl⟩
  · intro m hm
    rw [f1, f2, f3, hm]
    exact ⟨rfl, rfl, rfl⟩
  · intro h0
    rw [e1, e2, e3, h0]
    exact ⟨rfl, rfl, rfl⟩
  · simp [init_3ds_handle, h]
  · simp [refund_handle, h]
  · simp [delete_card_handle, h]

/-- C4 witness: a failure result with no error fields yields the three
operation-specific default error codes. -/
theorem failure_defaults_witness :
    (init_3ds_fail_detail r4).get "errorCode" = some (.str "3ds_init_failed") ∧
    (refund_fail_detail r4).get "errorCode" = some (.str "refund_failed") ∧
    (card_delete_fail_detail r4).get "errorCode" = some (.str "card_delete_failed") := by
  obtain ⟨_, _, h3, _⟩ := failure_defaults r4 (by decide)
  exact h3 rfl

/-- C5: every failure body this layer itself constructs — the normalizer's
failure branch (shared by create/complete-3DS/charge, raised with status 400),
the six operation-specific 400 details, and the generic 500 `server_error`
detail — is a `success=false` envelope carrying an `errorCode` and an
`errorMessage`.  These are the processor-business-rejection and
unexpected-exception categories.  The third category the envelope policy
covers, caller-input validation failure (e.g. the `binNumber` length and
`amount > 0` constraints declared at lines 306-308), is rejected by the web
framework's default validation handler — `main.py` installs none of its own —
whose 422 body is a bare `detail` list with no `success`/`errorCode`/
`errorMessage` keys, so the backend does not preserve the envelope on that
path.  This theorem establishes the envelope on the two paths the backend's
own code decides. -/
theorem error_envelope (r : IyzicoResult) (msg : String) (h : r.status ≠ some "success") :
    (∀ resp, map_payment_response r = some resp →
      isErrorEnvelope resp ∧
        payment_response_handle r = some (.httpError 400 resp)) ∧
    isErrorEnvelope (init_3ds_fail_detail r) ∧
    isErrorEnvelope (installments_fail_detail r) ∧
    isErrorEnvelope (refund_fail_detail r) ∧
    isErrorEnvelope (status_fail_detail r) ∧
    isErrorEnvelope (cards_list_fail_detail r) ∧
    isErrorEnvelope (card_delete_fail_detail r) ∧
    isErrorEnvelope (server_error_detail msg) := by
  have hfail : map_payment_response r = some (Json.obj
      [("success", .bool false),
       ("errorCode", .str (r.errorCode.getD "unknown")),
       ("errorMessage", .str (r.errorMessage.getD "Unknown error"))]) := by
    simp [map_payment_response, h]
  refine ⟨?_, ⟨rfl, ⟨_, rfl⟩, ⟨_, rfl⟩⟩, ⟨rfl, ⟨_, rfl⟩, ⟨_, rfl⟩⟩,
    ⟨rfl, ⟨_, rfl⟩, ⟨_, rfl⟩⟩, ⟨rfl, ⟨_, rfl⟩, ⟨_, rfl⟩⟩, ⟨rfl, ⟨_, rfl⟩, ⟨_, rfl⟩⟩,
    ⟨rfl, ⟨_, rfl⟩, ⟨_, rfl⟩⟩, ⟨rfl, ⟨_, rfl⟩, ⟨_, rfl⟩⟩⟩
  intro resp hr
  rw [hfail] at hr
  have hr' := Option.some.inj hr
  subst hr'
  refine ⟨⟨rfl, ⟨_, rfl⟩, ⟨_, rfl⟩⟩, ?_⟩
  rw [payment_response_handle, hfail]
  rfl

/-- C5 witness: a result with no status key yields envelopes on every path. -/
theorem error_envelope_witness :
    isErrorEnvelope (init_3ds_fail_detail r5) ∧
    isErrorEnvelope (server_error_detail "boom") := by
  obtain ⟨_, h2, _, _, _, _, _, h8⟩ := error_envelope r5 "boom" (by decide)
  exact ⟨h2, h8⟩

/-- C1 amended: building a payload and normalizing a synthetic success result
recovers `amount` numerically, and recovers `paidAmount` as the request's
`paidPrice` when that is present and nonzero, and as `amount` when `paidPrice`
is absent or zero (Python's `or` treats a supplied `0.0` as absent). -/
theorem round_trip_amended (req : PaymentRequest) :
    ∃ resp a p, map_payment_response (synthetic_success (map_payment_request req)) = some resp ∧
      resp.get "amount" = some (.num a) ∧
      resp.get "paidAmount" = some (.num p) ∧
      a.toRat = req.amount.toRat ∧
      p.toRat = (match req.paidPrice with
        | some q => if q.m = 0 then req.amount.toRat else q.toRat
        | none => req.amount.toRat) := by
  obtain ⟨a, ha, hav⟩ := pyFloat_str_float req.amount
  obtain ⟨p, hp, hpv⟩ := pyFloat_str_float (pyOrDec req.paidPrice req.amount)
  have h1 : pyFloatOrZero (synthetic_success (map_payment_request req)).price = some a := ha
  have h2 : pyFloatOrZero (synthetic_success (map_payment_request req)).paidPrice = some p := hp
  have hst : (synthetic_success (map_payment_request req)).status = some "success" := rfl
  have hresp : map_payment_response (synthetic_success (map_payment_request req))
      = some (Json.obj
        [("success", .bool true),
         ("transactionId", optStr none),
         ("paymentId", optStr none),
         ("amount", .num a),
         ("paidAmount", .num p),
         ("installment", optInt none),
         ("cardType", optStr none),
         ("cardAssociation", optStr none),
         ("binNumber", optStr none),
         ("lastFourDigits", optStr none)]) := by
    simp [map_payment_response, hst, h1, h2]
    exact ⟨rfl, rfl, rfl, rfl, rfl, rfl⟩
  refine ⟨_, a, p, hresp, rfl, rfl, hav, ?_⟩
  rw [hpv]
  unfold pyOrDec
  cases hq : req.paidPrice with
  | none => rfl
  | some q =>
      by_cases hz : q.m = 0 <;> simp [hz]

/-- C1 counterexample: with `amount = 100.0` and a supplied `paidPrice = 0.0`,
the recovered `paidAmount` is `100.0`, not numerically equal to the request's
`paidPrice` (`0.0`). -/
theorem round_trip_cex :
    req0.paidPrice = some ⟨0, 0⟩ ∧
    (Dec.mk 0 0).toRat = 0 ∧
    (map_payment_response (synthetic_success (map_payment_request req0))).map
        (fun resp => resp.get "paidAmount") = some (some (.num ⟨1000, 1⟩)) ∧
    (Dec.mk 1000 1).toRat ≠ (Dec.mk 0 0).toRat := by
  refine ⟨rfl, by norm_num [Dec.toRat], rfl, by norm_num [Dec.toRat]⟩

end TrPaymentHub
